import Mathlib

/-!
Verification of the token-lifecycle manager and the job location-resolution
helper of a job-portal backend.  The definitions below are a shallow
embedding of the JavaScript source: the remote key-value store is a `Store`
value carrying its contents and availability flags, wall-clock time is an
explicit `now : Nat` (epoch milliseconds), the provider's token endpoint is
a `ProviderResponse` parameter, and fallible operations return `Except`.
-/

namespace JobPortal

/-- The sole persisted entity: the OAuth credential record.  `expires_at`
and `last_refreshed` are epoch milliseconds; a JavaScript-falsy
`expires_at` (absent or 0) is modelled as `0`, an absent `last_refreshed`
as `none`. -/
structure CredentialRecord where
  access_token : String
  refresh_token : String
  expires_in : Nat
  expires_at : Nat
  last_refreshed : Option Nat
  deriving Repr, DecidableEq, Inhabited

/-- Static configuration (environment variables); a missing variable is the
empty string, matching the JavaScript falsy test `!client_id`. -/
structure Env where
  client_id : String
  client_secret : String
  servicem8_access_token : String
  servicem8_refresh_token : String
  deriving Repr, DecidableEq, Inhabited

/-- The remote key-value store holding the single record under the fixed
key, together with whether its read and write operations currently
succeed. -/
structure Store where
  contents : Option CredentialRecord
  readOk : Bool
  writeOk : Bool
  deriving Repr, DecidableEq, Inhabited

/-- Failure of the remote store (network or auth error). -/
inductive StoreError where
  | unreachable
  deriving Repr, DecidableEq

/-- The configuration-derived fallback record: tokens from the environment,
expiry fields zeroed (immediately expired), no refresh timestamp. -/
def fallbackRecord (env : Env) : CredentialRecord :=
  { access_token := env.servicem8_access_token
    refresh_token := env.servicem8_refresh_token
    expires_in := 0
    expires_at := 0
    last_refreshed := none }

/-- `redis.get('servicem8:tokens')`: may throw, else returns the stored
record when present. -/
def redisGet (s : Store) : Except StoreError (Option CredentialRecord) :=
  if s.readOk then .ok s.contents else .error .unreachable

/-- `redis.set('servicem8:tokens', data)`: may throw, else replaces the
whole record. -/
def redisSet (s : Store) (data : CredentialRecord) : Except StoreError Store :=
  if s.writeOk then .ok { s with contents := some data } else .error .unreachable

/-- `readTokenData`: try the remote fetch; fall back to the
configuration-derived record both when the store returns nothing and when
it throws.  Never propagates a storage error. -/
def readTokenData (env : Env) (s : Store) : CredentialRecord :=
  match redisGet s with
  | .ok (some tokens) => tokens
  | .ok none => fallbackRecord env
  | .error _ => fallbackRecord env

/-- `writeTokenData`: attempt the remote persist; `true` on success,
`false` (error swallowed) on failure.  Returns the store after the
attempt. -/
def writeTokenData (s : Store) (data : CredentialRecord) : Store × Bool :=
  match redisSet s data with
  | .ok s2 => (s2, true)
  | .error _ => (s, false)

/-- `calculateTokenExpiry`: `Date.now() + expiresIn * 1000`. -/
def calculateTokenExpiry (now expiresIn : Nat) : Nat :=
  now + expiresIn * 1000

/-- `isTokenExpired`: reads the record; true when `expires_at` is falsy or
the token expires within the next 5 minutes (`Date.now() + 5*60*1000 >
expires_at`). -/
def isTokenExpired (env : Env) (s : Store) (now : Nat) : Bool :=
  let tokenData := readTokenData env s
  if tokenData.expires_at = 0 then true
  else decide (now + 5 * 60 * 1000 > tokenData.expires_at)

/-- `needsProactiveRefresh`: reads the record; true when `expires_at` or
`last_refreshed` is falsy, or at least 3000 seconds have elapsed since
`last_refreshed`.  The elapsed time is `Date.now() - last_refreshed` as a
signed quantity, exactly as in JavaScript. -/
def needsProactiveRefresh (env : Env) (s : Store) (now : Nat) : Bool :=
  let tokenData := readTokenData env s
  if tokenData.expires_at = 0 ∨ tokenData.last_refreshed.getD 0 = 0 then true
  else decide ((now : Int) - (tokenData.last_refreshed.getD 0 : Nat) ≥ 3000 * 1000)

/-- Outcome of the provider token endpoint
(`POST .../oauth/access_token`).  The code destructures only
`access_token`, `refresh_token` and `expires_in` from a success payload;
`resp_expires_at` stands for any expiry field the provider might also
send, which the code never reads.  `errorResponse code` is a rejection
whose body carries `error = code`; `networkError` is a failure with no
response payload. -/
inductive ProviderResponse where
  | success (access_token refresh_token : String) (expires_in : Nat) (resp_expires_at : Nat)
  | errorResponse (code : String)
  | networkError
  deriving Repr, DecidableEq

/-- Errors thrown by `refreshAccessToken`. -/
inductive RefreshError where
  | missingCredentials
  | providerError (code : Option String)
  deriving Repr, DecidableEq

deriving instance DecidableEq for Except

/-- Result of a `refreshAccessToken` call: the returned token or thrown
error, the store afterwards, and how many provider calls were made. -/
structure RefreshOutcome where
  result : Except RefreshError String
  store : Store
  providerCalls : Nat
  deriving Repr, DecidableEq

/-- The invalidated record persisted on `invalid_grant` to stop retry
loops (the object literal in the source has no `last_refreshed` field). -/
def invalidTokenData : CredentialRecord :=
  { access_token := ""
    refresh_token := ""
    expires_in := 0
    expires_at := 0
    last_refreshed := none }

/-- `refreshAccessToken`: read the record; fail fast (no provider call)
when client id, client secret or the record's refresh token is falsy;
otherwise POST to the token endpoint.  On success derive
`expires_at = now + expires_in * 1000`, merge the new token fields over
the old record, persist (ignoring the write's boolean result) and return
the new access token.  On an `invalid_grant` rejection persist
`invalidTokenData`, then rethrow; on any other failure rethrow with the
store untouched. -/
def refreshAccessToken (env : Env) (s : Store) (provider : ProviderResponse)
    (now : Nat) : RefreshOutcome :=
  let tokenData := readTokenData env s
  if env.client_id = "" ∨ env.client_secret = "" ∨ tokenData.refresh_token = "" then
    { result := .error .missingCredentials, store := s, providerCalls := 0 }
  else
    match provider with
    | .success access_token newRefreshToken expires_in _ =>
      let expires_at := calculateTokenExpiry now expires_in
      let newTokenData : CredentialRecord :=
        { tokenData with
          access_token := access_token
          refresh_token := newRefreshToken
          expires_in := expires_in
          expires_at := expires_at
          last_refreshed := some now }
      let ws := writeTokenData s newTokenData
      { result := .ok access_token, store := ws.1, providerCalls := 1 }
    | .errorResponse code =>
      if code = "invalid_grant" then
        let ws := writeTokenData s invalidTokenData
        { result := .error (.providerError (some code)), store := ws.1, providerCalls := 1 }
      else
        { result := .error (.providerError (some code)), store := s, providerCalls := 1 }
    | .networkError =>
      { result := .error (.providerError none), store := s, providerCalls := 1 }

/-- Result of a `getValidAccessToken` call: the returned token or thrown
error, the store afterwards, and how many refresh attempts were made. -/
structure AccessOutcome where
  result : Except RefreshError String
  store : Store
  refreshAttempts : Nat
  deriving Repr, DecidableEq

/-- `getValidAccessToken`: read the record; refresh when the access token
is empty, else when expired, else when due for proactive refresh;
otherwise return the stored token unchanged.  Errors from the refresher
are rethrown unchanged. -/
def getValidAccessToken (env : Env) (s : Store) (provider : ProviderResponse)
    (now : Nat) : AccessOutcome :=
  let tokenData := readTokenData env s
  if tokenData.access_token = "" then
    let r := refreshAccessToken env s provider now
    { result := r.result, store := r.store, refreshAttempts := 1 }
  else if isTokenExpired env s now then
    let r := refreshAccessToken env s provider now
    { result := r.result, store := r.store, refreshAttempts := 1 }
  else if needsProactiveRefresh env s now then
    let r := refreshAccessToken env s provider now
    { result := r.result, store := r.store, refreshAttempts := 1 }
  else
    { result := .ok tokenData.access_token, store := s, refreshAttempts := 0 }

/-- `startTokenMonitor`'s mutable closure state: the consecutive-failure
counter and the store it acts on. -/
structure MonitorState where
  consecutiveFailures : Nat
  store : Store
  deriving Repr, DecidableEq

/-- `maxConsecutiveFailures` in the monitor. -/
def maxConsecutiveFailures : Nat := 3

/-- Outcome of one monitor tick: the new state, the number of provider
calls made during the tick, and whether a successful refresh happened. -/
structure TickOutcome where
  state : MonitorState
  providerCalls : Nat
  refreshed : Bool
  deriving Repr, DecidableEq

/-- One tick of the `setInterval` callback in `startTokenMonitor`: skip
entirely while paused (counter at the failure limit); otherwise refresh
when proactively due, resetting the counter on success and incrementing
it on failure; when not due, only log. -/
def monitorTick (env : Env) (st : MonitorState) (provider : ProviderResponse)
    (now : Nat) : TickOutcome :=
  if st.consecutiveFailures ≥ maxConsecutiveFailures then
    { state := st, providerCalls := 0, refreshed := false }
  else if needsProactiveRefresh env st.store now then
    let r := refreshAccessToken env st.store provider now
    match r.result with
    | .ok _ =>
      { state := { consecutiveFailures := 0, store := r.store }
        providerCalls := r.providerCalls, refreshed := true }
    | .error _ =>
      { state := { consecutiveFailures := st.consecutiveFailures + 1, store := r.store }
        providerCalls := r.providerCalls, refreshed := false }
  else
    { state := st, providerCalls := 0, refreshed := false }

/-- The monitor's construction: the counter starts at 0 and one immediate
`getValidAccessToken` runs, incrementing the counter on failure (not
gated by the paused state). -/
def startTokenMonitor (env : Env) (s : Store) (provider : ProviderResponse)
    (now : Nat) : MonitorState :=
  let r := getValidAccessToken env s provider now
  match r.result with
  | .ok _ => { consecutiveFailures := 0, store := r.store }
  | .error _ => { consecutiveFailures := 0 + 1, store := r.store }

/-- Run the monitor through a sequence of ticks, each with its own
provider behaviour and clock reading. -/
def monitorRun (env : Env) (st : MonitorState) :
    List (ProviderResponse × Nat) → MonitorState
  | [] => st
  | (p, now) :: rest => monitorRun env (monitorTick env st p now).state rest

/-- A provider location record; a field the provider did not send is
`none`, and `uuid` is the empty string when falsy. -/
structure Location where
  uuid : String
  name : Option String
  line1 : Option String
  line2 : Option String
  city : Option String
  state : Option String
  post_code : Option String
  country : Option String
  deriving Repr, DecidableEq, Inhabited

/-- A job record, with the fields `resolveJobLocationData` inspects or
writes made explicit.  `payload` stands for every other field of the job
object, which the spread `...job` carries through untouched. -/
structure Job where
  location_uuid : Option String
  job_address : Option String
  location_address : Option String
  location_name : Option String
  location_city : Option String
  location_state : Option String
  location_postcode : Option String
  location_country : Option String
  geo_street : Option String
  geo_city : Option String
  geo_state : Option String
  geo_postcode : Option String
  geo_country : Option String
  payload : String
  deriving Repr, DecidableEq, Inhabited

/-- The argument/return shape of `resolveJobLocationData`: a single job
object or an array of jobs. -/
inductive JobsInput where
  | single (j : Job)
  | many (js : List Job)
  deriving Repr, DecidableEq

/-- One `if (x) parts.push(x)` step of `formatLocationAddress`. -/
def optPart : Option String → List String
  | none => []
  | some s => if s = "" then [] else [s]

/-- `formatLocationAddress` on a present location: push the truthy parts
(country only when it differs from Australia) and join with a comma. -/
def formatLocationAddress (location : Location) : String :=
  let parts :=
    optPart location.line1 ++ optPart location.line2 ++ optPart location.city ++
    optPart location.state ++ optPart location.post_code ++
    (match location.country with
     | none => []
     | some c => if c = "" ∨ c = "Australia" then [] else [c])
  String.intercalate ", " parts

/-- The `locationMap` lookup: `set` is called for every location with a
truthy uuid, later entries overwriting earlier ones, and `get` fetches by
the job's uuid. -/
def lookupLocation (locs : List Location) (u : String) : Option Location :=
  locs.foldl (fun acc location =>
    if location.uuid ≠ "" ∧ location.uuid = u then some location else acc) none

/-- The body of the `jobs.map` in `resolveJobLocationData`: a job with a
truthy `location_uuid` found in the map gets the location fields
populated over the spread of its own fields; any other job is returned
as-is. -/
def resolveJob (locs : List Location) (job : Job) : Job :=
  match job.location_uuid with
  | none => job
  | some u =>
    if u = "" then job
    else
      match lookupLocation locs u with
      | none => job
      | some location =>
        { job with
          location_address := some (formatLocationAddress location)
          location_name := location.name
          location_city := location.city
          location_state := location.state
          location_postcode := location.post_code
          location_country := location.country
          geo_street := location.line1
          geo_city := location.city
          geo_state := location.state
          geo_postcode := location.post_code
          geo_country := location.country
          job_address :=
            match job.job_address with
            | none => some (formatLocationAddress location)
            | some a => if a = "" then some (formatLocationAddress location) else some a }

/-- `resolveJobLocationData`: wrap a single job into an array, resolve
each job against the fetched locations, and unwrap to the input's
shape. -/
def resolveJobLocationData (locs : List Location) (jobs : JobsInput) : JobsInput :=
  let wasArray := match jobs with | .many _ => true | .single _ => false
  let jobsList := match jobs with | .many js => js | .single j => [j]
  let resolvedJobs := jobsList.map (resolveJob locs)
  if wasArray then .many resolvedJobs else .single resolvedJobs.headI

/-- A sample configuration used to instantiate the theorems. -/
def exEnv : Env :=
  { client_id := "cid"
    client_secret := "csecret"
    servicem8_access_token := "envAccess"
    servicem8_refresh_token := "envRefresh" }

/-- A sample credential record used to instantiate the theorems. -/
def exRecord : CredentialRecord :=
  { access_token := "tokA"
    refresh_token := "tokR"
    expires_in := 3600
    expires_at := 2000000
    last_refreshed := some 1000000 }

/-- When the store is reachable and holds a record, `readTokenData`
returns that record. -/
theorem readTokenData_some (env : Env) (s : Store) (r : CredentialRecord)
    (hr : s.readOk = true) (hc : s.contents = some r) :
    readTokenData env s = r := by
  simp [readTokenData, redisGet, hr, hc]

/-- Claim C4: for every stored credential record and current time,
`isTokenExpired` is true exactly when `expires_at` is unset/zero or the
current time plus 5 minutes exceeds `expires_at`; in particular it is
true at `expires_at = 0` and within the 5-minute window, and false at
`expires_at = now + 10` minutes. -/
theorem isTokenExpired_spec (env : Env) (s : Store) (r : CredentialRecord) (now : Nat)
    (hr : s.readOk = true) (hc : s.contents = some r) :
    (isTokenExpired env s now = true ↔
      r.expires_at = 0 ∨ now + 5 * 60 * 1000 > r.expires_at)
    ∧ (r.expires_at = 0 → isTokenExpired env s now = true)
    ∧ (r.expires_at ≠ 0 → now + 5 * 60 * 1000 > r.expires_at →
        isTokenExpired env s now = true)
    ∧ (r.expires_at = now + 10 * 60 * 1000 → isTokenExpired env s now = false) := by
  have hread := readTokenData_some env s r hr hc
  have heq : isTokenExpired env s now =
      (if r.expires_at = 0 then true
       else decide (now + 5 * 60 * 1000 > r.expires_at)) := by
    unfold isTokenExpired
    rw [hread]
  rw [heq]
  by_cases h : r.expires_at = 0
  · simp [h]
  · rw [if_neg h]
    refine ⟨by simp [h], fun h0 => absurd h0 h, fun _ hlt => by simpa using hlt,
      fun he => ?_⟩
    simp only [decide_eq_false_iff_not, not_lt, he]
    omega

/-- Instance of claim C4: a token expiring ten minutes from now is not
expired. -/
theorem isTokenExpired_spec_witness :
    isTokenExpired exEnv ⟨some ⟨"a", "r", 600, 600000, some 0⟩, true, true⟩ 0 = false :=
  (isTokenExpired_spec exEnv ⟨some ⟨"a", "r", 600, 600000, some 0⟩, true, true⟩
    ⟨"a", "r", 600, 600000, some 0⟩ 0 rfl rfl).2.2.2 (by decide)

/-- Claim C5: for every stored credential record and current time,
`needsProactiveRefresh` is true exactly when `expires_at` or
`last_refreshed` is unset (JavaScript-falsy) or at least 3000 seconds
have elapsed since `last_refreshed`; in particular it is false when
`last_refreshed` equals the current time. -/
theorem needsProactiveRefresh_spec (env : Env) (s : Store) (r : CredentialRecord) (now : Nat)
    (hr : s.readOk = true) (hc : s.contents = some r) :
    (needsProactiveRefresh env s now = true ↔
      r.expires_at = 0 ∨ r.last_refreshed.getD 0 = 0 ∨
        (now : Int) - (r.last_refreshed.getD 0 : Nat) ≥ 3000 * 1000)
    ∧ (r.expires_at ≠ 0 → r.last_refreshed = some now → now ≠ 0 →
        needsProactiveRefresh env s now = false) := by
  have hread := readTokenData_some env s r hr hc
  have heq : needsProactiveRefresh env s now =
      (if r.expires_at = 0 ∨ r.last_refreshed.getD 0 = 0 then true
       else decide ((now : Int) - (r.last_refreshed.getD 0 : Nat) ≥ 3000 * 1000)) := by
    unfold needsProactiveRefresh
    rw [hread]
  rw [heq]
  constructor
  · by_cases h : r.expires_at = 0 ∨ r.last_refreshed.getD 0 = 0
    · simp only [if_pos h, true_iff]
      tauto
    · push_neg at h
      simp [h.1, h.2]
  · intro he hl hn
    rw [hl]
    simp only [Option.getD_some]
    rw [if_neg (by simp [he, hn])]
    simp only [decide_eq_false_iff_not, not_le]
    omega

/-- Instance of claim C5: a record refreshed at the current instant is
not yet due for proactive refresh. -/
theorem needsProactiveRefresh_spec_witness :
    needsProactiveRefresh exEnv ⟨some ⟨"a", "r", 600, 900000, some 500⟩, true, true⟩ 500 = false :=
  (needsProactiveRefresh_spec exEnv ⟨some ⟨"a", "r", 600, 900000, some 500⟩, true, true⟩
    ⟨"a", "r", 600, 900000, some 500⟩ 500 rfl rfl).2 (by decide) rfl (by decide)

/-- Claim C7: `readTokenData` never propagates a storage error: it
returns the stored record when the fetch succeeds and one is present,
and otherwise — both on an empty store and on a failing store — the
configuration-derived record with zeroed expiry fields. -/
theorem readTokenData_spec (env : Env) (s : Store) :
    (∀ r, s.readOk = true → s.contents = some r → readTokenData env s = r)
    ∧ (s.readOk = true → s.contents = none → readTokenData env s = fallbackRecord env)
    ∧ (s.readOk = false → readTokenData env s = fallbackRecord env)
    ∧ fallbackRecord env =
      { access_token := env.servicem8_access_token
        refresh_token := env.servicem8_refresh_token
        expires_in := 0
        expires_at := 0
        last_refreshed := none } := by
  refine ⟨fun r hr hc => readTokenData_some env s r hr hc, ?_, ?_, rfl⟩
  · intro hr hc
    simp [readTokenData, redisGet, hr, hc]
  · intro hr
    simp [readTokenData, redisGet, hr]

/-- Instance of claim C7: an unreachable store yields the
configuration-derived fallback record without an error. -/
theorem readTokenData_spec_witness :
    readTokenData exEnv ⟨none, false, true⟩ = fallbackRecord exEnv :=
  (readTokenData_spec exEnv ⟨none, false, true⟩).2.2.1 rfl

/-- Claim C9: with the store available, writing a record and then reading
it back returns the record written, field for field. -/
theorem write_read_roundtrip (env : Env) (s : Store) (r : CredentialRecord)
    (hw : s.writeOk = true) (hr : s.readOk = true) :
    readTokenData env (writeTokenData s r).1 = r ∧ (writeTokenData s r).2 = true := by
  simp [writeTokenData, redisSet, hw, readTokenData, redisGet, hr]

/-- Instance of claim C9: the sample record round-trips through an
available store. -/
theorem write_read_roundtrip_witness :
    readTokenData exEnv (writeTokenData ⟨none, true, true⟩ exRecord).1 = exRecord
    ∧ (writeTokenData ⟨none, true, true⟩ exRecord).2 = true :=
  write_read_roundtrip exEnv ⟨none, true, true⟩ exRecord rfl rfl

/-- Claim C8: when the client id, client secret or the current record's
refresh token is missing, `refreshAccessToken` fails immediately with no
provider call and no mutation of the stored record. -/
theorem refresh_missing_credentials (env : Env) (s : Store) (provider : ProviderResponse)
    (now : Nat)
    (h : env.client_id = "" ∨ env.client_secret = "" ∨
      (readTokenData env s).refresh_token = "") :
    refreshAccessToken env s provider now =
      { result := .error .missingCredentials, store := s, providerCalls := 0 } := by
  unfold refreshAccessToken
  rw [if_pos h]

/-- Instance of claim C8: with an empty client id the refresh fails fast,
leaving the store untouched and making zero provider calls. -/
theorem refresh_missing_credentials_witness :
    refreshAccessToken ⟨"", "csecret", "envAccess", "envRefresh"⟩
        ⟨some exRecord, true, true⟩ .networkError 7
      = { result := .error .missingCredentials
          store := ⟨some exRecord, true, true⟩
          providerCalls := 0 } :=
  refresh_missing_credentials ⟨"", "csecret", "envAccess", "envRefresh"⟩
    ⟨some exRecord, true, true⟩ .networkError 7 (Or.inl rfl)

/-- Claim C2: on a provider rejection the refresher mutates the stored
record exactly when the error is `invalid_grant`, in which case it
persists the invalidated record and propagates the error; on
`invalid_client` and every other error (including a failure with no
response payload) it propagates the error with the store unchanged. -/
theorem refresh_provider_error_spec (env : Env) (s : Store) (now : Nat) (code : String)
    (h : ¬(env.client_id = "" ∨ env.client_secret = "" ∨
      (readTokenData env s).refresh_token = "")) :
    (refreshAccessToken env s (.errorResponse code) now).result =
      .error (.providerError (some code))
    ∧ (code = "invalid_grant" →
        (refreshAccessToken env s (.errorResponse code) now).store =
          (writeTokenData s invalidTokenData).1)
    ∧ (code = "invalid_grant" → s.writeOk = true →
        (refreshAccessToken env s (.errorResponse code) now).store.contents =
          some invalidTokenData)
    ∧ (code ≠ "invalid_grant" →
        (refreshAccessToken env s (.errorResponse code) now).store = s)
    ∧ (refreshAccessToken env s .networkError now).store = s := by
  have heq : refreshAccessToken env s (.errorResponse code) now =
      (if code = "invalid_grant" then
        { result := .error (.providerError (some code))
          store := (writeTokenData s invalidTokenData).1
          providerCalls := 1 }
      else
        { result := .error (.providerError (some code)), store := s, providerCalls := 1 }) := by
    unfold refreshAccessToken
    rw [if_neg h]
  have hnet : refreshAccessToken env s .networkError now =
      { result := .error (.providerError none), store := s, providerCalls := 1 } := by
    unfold refreshAccessToken
    rw [if_neg h]
  refine ⟨?_, ?_, ?_, ?_, by rw [hnet]⟩
  · rw [heq]; by_cases hc : code = "invalid_grant" <;> simp [hc]
  · intro hc; rw [heq, if_pos hc]
  · intro hc hw
    rw [heq, if_pos hc]
    simp [writeTokenData, redisSet, hw]
  · intro hc; rw [heq, if_neg hc]

/-- Instance of claim C2: an `invalid_client` rejection leaves the stored
record exactly as it was. -/
theorem refresh_provider_error_spec_witness :
    (refreshAccessToken exEnv ⟨some exRecord, true, true⟩
        (.errorResponse "invalid_client") 7).store = ⟨some exRecord, true, true⟩ :=
  (refresh_provider_error_spec exEnv ⟨some exRecord, true, true⟩ 7 "invalid_client"
    (by decide)).2.2.2.1 (by decide)

/-- Claim C6: on a successful provider response the refresher builds the
new record by overwriting the old one with the new tokens, an
`expires_at` derived as `now + expires_in * 1000` (never taken from the
response — the outcome is independent of any expiry field the response
carries), and `last_refreshed = now`; it persists that record through the
store write and returns the new access token, also when the write
fails. -/
theorem refresh_success_spec (env : Env) (s : Store) (now : Nat)
    (a rt : String) (ei rea : Nat)
    (h : ¬(env.client_id = "" ∨ env.client_secret = "" ∨
      (readTokenData env s).refresh_token = "")) :
    (refreshAccessToken env s (.success a rt ei rea) now).result = .ok a
    ∧ (refreshAccessToken env s (.success a rt ei rea) now).store =
        (writeTokenData s
          { readTokenData env s with
            access_token := a
            refresh_token := rt
            expires_in := ei
            expires_at := now + ei * 1000
            last_refreshed := some now }).1
    ∧ (s.writeOk = true →
        (refreshAccessToken env s (.success a rt ei rea) now).store.contents =
          some { readTokenData env s with
                 access_token := a
                 refresh_token := rt
                 expires_in := ei
                 expires_at := now + ei * 1000
                 last_refreshed := some now })
    ∧ (s.writeOk = false →
        (refreshAccessToken env s (.success a rt ei rea) now).store = s
        ∧ (refreshAccessToken env s (.success a rt ei rea) now).result = .ok a)
    ∧ (∀ rea2, refreshAccessToken env s (.success a rt ei rea2) now =
        refreshAccessToken env s (.success a rt ei rea) now) := by
  have heq : ∀ x, refreshAccessToken env s (.success a rt ei x) now =
      { result := .ok a
        store := (writeTokenData s
          { readTokenData env s with
            access_token := a
            refresh_token := rt
            expires_in := ei
            expires_at := now + ei * 1000
            last_refreshed := some now }).1
        providerCalls := 1 } := by
    intro x
    unfold refreshAccessToken
    rw [if_neg h]
    rfl
  refine ⟨by rw [heq], by rw [heq], ?_, ?_, fun rea2 => by rw [heq, heq]⟩
  · intro hw
    rw [heq]
    simp [writeTokenData, redisSet, hw]
  · intro hw
    rw [heq]
    simp [writeTokenData, redisSet, hw]

/-- Instance of claim C6: a concrete successful refresh returns the new
token and persists the merged record with the derived expiry. -/
theorem refresh_success_spec_witness :
    (refreshAccessToken exEnv ⟨some exRecord, true, true⟩
        (.success "newA" "newR" 3600 42) 5000).result = .ok "newA"
    ∧ (refreshAccessToken exEnv ⟨some exRecord, true, true⟩
        (.success "newA" "newR" 3600 42) 5000).store.contents =
      some { access_token := "newA"
             refresh_token := "newR"
             expires_in := 3600
             expires_at := 3605000
             last_refreshed := some 5000 } := by
  have hspec := refresh_success_spec exEnv ⟨some exRecord, true, true⟩ 5000
    "newA" "newR" 3600 42 (by decide)
  refine ⟨hspec.1, ?_⟩
  rw [hspec.2.2.1 rfl]

/-- Claim C1: `getValidAccessToken` reads the record and refreshes when
the access token is empty, else when expired, else when proactively due,
and otherwise returns the stored token unchanged; each refreshing branch
makes exactly one refresh attempt and no call ever makes more than
one. -/
theorem getValidAccessToken_spec (env : Env) (s : Store) (provider : ProviderResponse)
    (now : Nat) :
    (getValidAccessToken env s provider now).refreshAttempts ≤ 1
    ∧ ((readTokenData env s).access_token = "" →
        getValidAccessToken env s provider now =
          { result := (refreshAccessToken env s provider now).result
            store := (refreshAccessToken env s provider now).store
            refreshAttempts := 1 })
    ∧ ((readTokenData env s).access_token ≠ "" → isTokenExpired env s now = true →
        getValidAccessToken env s provider now =
          { result := (refreshAccessToken env s provider now).result
            store := (refreshAccessToken env s provider now).store
            refreshAttempts := 1 })
    ∧ ((readTokenData env s).access_token ≠ "" → isTokenExpired env s now = false →
        needsProactiveRefresh env s now = true →
        getValidAccessToken env s provider now =
          { result := (refreshAccessToken env s provider now).result
            store := (refreshAccessToken env s provider now).store
            refreshAttempts := 1 })
    ∧ ((readTokenData env s).access_token ≠ "" → isTokenExpired env s now = false →
        needsProactiveRefresh env s now = false →
        getValidAccessToken env s provider now =
          { result := .ok (readTokenData env s).access_token
            store := s
            refreshAttempts := 0 }) := by
  unfold getValidAccessToken
  by_cases h1 : (readTokenData env s).access_token = ""
  · rw [if_pos h1]
    exact ⟨le_refl 1, fun _ => rfl, fun hn => absurd h1 hn, fun hn => absurd h1 hn,
      fun hn => absurd h1 hn⟩
  · rw [if_neg h1]
    by_cases h2 : isTokenExpired env s now
    · rw [if_pos h2]
      exact ⟨le_refl 1, fun he => absurd he h1, fun _ _ => rfl,
        fun _ hf _ => absurd h2 (by simp [hf]), fun _ hf _ => absurd h2 (by simp [hf])⟩
    · rw [if_neg h2]
      by_cases h3 : needsProactiveRefresh env s now
      · rw [if_pos h3]
        exact ⟨le_refl 1, fun he => absurd he h1, fun _ ht => absurd ht (by simp [h2]),
          fun _ _ _ => rfl, fun _ _ hf => absurd h3 (by simp [hf])⟩
      · rw [if_neg h3]
        exact ⟨Nat.zero_le 1, fun he => absurd he h1, fun _ ht => absurd ht (by simp [h2]),
          fun _ _ ht => absurd ht (by simp [h3]), fun _ _ _ => rfl⟩

/-- Instance of claim C1: a store whose record has an empty access token
makes `getValidAccessToken` perform exactly one refresh attempt. -/
theorem getValidAccessToken_spec_witness :
    getValidAccessToken exEnv ⟨some ⟨"", "tokR", 0, 0, none⟩, true, true⟩
        (.success "newA" "newR" 3600 0) 5000 =
      { result := (refreshAccessToken exEnv ⟨some ⟨"", "tokR", 0, 0, none⟩, true, true⟩
          (.success "newA" "newR" 3600 0) 5000).result
        store := (refreshAccessToken exEnv ⟨some ⟨"", "tokR", 0, 0, none⟩, true, true⟩
          (.success "newA" "newR" 3600 0) 5000).store
        refreshAttempts := 1 } :=
  (getValidAccessToken_spec exEnv ⟨some ⟨"", "tokR", 0, 0, none⟩, true, true⟩
    (.success "newA" "newR" 3600 0) 5000).2.1 (by decide)

/-- One monitor tick keeps the failure counter within the limit. -/
theorem monitorTick_failures_le (env : Env) (st : MonitorState)
    (provider : ProviderResponse) (now : Nat)
    (h : st.consecutiveFailures ≤ maxConsecutiveFailures) :
    (monitorTick env st provider now).state.consecutiveFailures ≤ maxConsecutiveFailures := by
  unfold monitorTick
  by_cases hp : st.consecutiveFailures ≥ maxConsecutiveFailures
  · rw [if_pos hp]; exact h
  · rw [if_neg hp]
    by_cases hd : needsProactiveRefresh env st.store now
    · rw [if_pos hd]
      cases hres : (refreshAccessToken env st.store provider now).result with
      | ok a => simp [hres, maxConsecutiveFailures]
      | error e => simp [hres]; omega
    · rw [if_neg hd]; exact h

/-- The monitor's failure counter stays within the limit along any run of
ticks. -/
theorem monitorRun_failures_le (env : Env) :
    ∀ (ticks : List (ProviderResponse × Nat)) (st : MonitorState),
      st.consecutiveFailures ≤ maxConsecutiveFailures →
      (monitorRun env st ticks).consecutiveFailures ≤ maxConsecutiveFailures := by
  intro ticks
  induction ticks with
  | nil => intro st h; exact h
  | cons t rest ih =>
    intro st h
    cases t with
    | mk p now =>
      exact ih (monitorTick env st p now).state (monitorTick_failures_le env st p now h)

/-- The monitor starts with at most one recorded failure. -/
theorem startTokenMonitor_failures_le (env : Env) (s : Store)
    (provider : ProviderResponse) (now : Nat) :
    (startTokenMonitor env s provider now).consecutiveFailures ≤ maxConsecutiveFailures := by
  unfold startTokenMonitor
  cases hres : (getValidAccessToken env s provider now).result with
  | ok a => simp [hres, maxConsecutiveFailures]
  | error e => simp [hres, maxConsecutiveFailures]

/-- Claim C3: the monitor's consecutive-failure counter stays in
[0, maxConsecutiveFailures] from startup through any run of ticks; a
tick firing while the counter is at the limit performs no refresh and no
provider call and leaves all state unchanged; a successful refresh on a
tick resets the counter to 0; and no tick lowers the counter without a
successful refresh. -/
theorem monitor_spec (env : Env) (st : MonitorState) (provider : ProviderResponse)
    (now : Nat) :
    (st.consecutiveFailures ≤ maxConsecutiveFailures →
      (monitorTick env st provider now).state.consecutiveFailures ≤ maxConsecutiveFailures)
    ∧ (st.consecutiveFailures ≥ maxConsecutiveFailures →
        monitorTick env st provider now =
          { state := st, providerCalls := 0, refreshed := false })
    ∧ ((monitorTick env st provider now).refreshed = true →
        (monitorTick env st provider now).state.consecutiveFailures = 0)
    ∧ ((monitorTick env st provider now).state.consecutiveFailures <
          st.consecutiveFailures →
        (monitorTick env st provider now).refreshed = true)
    ∧ (∀ (s0 : Store) (p0 : ProviderResponse) (n0 : Nat)
        (ticks : List (ProviderResponse × Nat)),
        (monitorRun env (startTokenMonitor env s0 p0 n0) ticks).consecutiveFailures ≤
          maxConsecutiveFailures) := by
  refine ⟨monitorTick_failures_le env st provider now, ?_, ?_, ?_,
    fun s0 p0 n0 ticks => monitorRun_failures_le env ticks _
      (startTokenMonitor_failures_le env s0 p0 n0)⟩
  · intro hp
    unfold monitorTick
    rw [if_pos hp]
  · unfold monitorTick
    by_cases hp : st.consecutiveFailures ≥ maxConsecutiveFailures
    · rw [if_pos hp]; intro hcon; exact absurd hcon (by simp)
    · rw [if_neg hp]
      by_cases hd : needsProactiveRefresh env st.store now
      · rw [if_pos hd]
        cases hres : (refreshAccessToken env st.store provider now).result with
        | ok a => simp [hres]
        | error e => simp [hres]
      · rw [if_neg hd]; intro hcon; exact absurd hcon (by simp)
  · unfold monitorTick
    by_cases hp : st.consecutiveFailures ≥ maxConsecutiveFailures
    · rw [if_pos hp]; intro hcon; simp at hcon
    · rw [if_neg hp]
      by_cases hd : needsProactiveRefresh env st.store now
      · rw [if_pos hd]
        cases hres : (refreshAccessToken env st.store provider now).result with
        | ok a => simp [hres]
        | error e => simp [hres]
      · rw [if_neg hd]; intro hcon; simp at hcon

/-- Instance of claim C3: a fourth tick after three consecutive failures
changes nothing and makes no provider call. -/
theorem monitor_spec_witness :
    monitorTick exEnv ⟨3, ⟨some exRecord, true, true⟩⟩ (.errorResponse "server_error") 9000000 =
      { state := ⟨3, ⟨some exRecord, true, true⟩⟩, providerCalls := 0, refreshed := false } :=
  (monitor_spec exEnv ⟨3, ⟨some exRecord, true, true⟩⟩
    (.errorResponse "server_error") 9000000).2.1 (by decide)

/-- A sample job and location used to instantiate claim C10. -/
def exLocation : Location :=
  { uuid := "loc1"
    name := some "Site"
    line1 := some "1 Main St"
    line2 := none
    city := some "Sydney"
    state := some "NSW"
    post_code := some "2000"
    country := some "Australia" }

/-- A sample job pointing at `exLocation`. -/
def exJob : Job :=
  { location_uuid := some "loc1"
    job_address := none
    location_address := none
    location_name := none
    location_city := none
    location_state := none
    location_postcode := none
    location_country := none
    geo_street := none
    geo_city := none
    geo_state := none
    geo_postcode := none
    geo_country := none
    payload := "job-42" }

/-- Claim C10: `resolveJobLocationData` preserves the input's shape (an
array maps elementwise, keeping length and order; a single object yields
a single object); a job with an absent/empty `location_uuid` or one
matching no fetched location is returned unchanged; a matching job keeps
its other fields (its payload, uuid, and a truthy `job_address`) while the
location_*/geo_* fields and a falsy `job_address` are populated from the
matched location. -/
theorem resolveJobLocationData_spec (locs : List Location) :
    (∀ j : Job, resolveJobLocationData locs (.single j) = .single (resolveJob locs j))
    ∧ (∀ js : List Job,
        resolveJobLocationData locs (.many js) = .many (js.map (resolveJob locs)))
    ∧ (∀ js : List Job, (js.map (resolveJob locs)).length = js.length)
    ∧ (∀ j : Job, j.location_uuid = none → resolveJob locs j = j)
    ∧ (∀ (j : Job) (u : String), j.location_uuid = some u →
        (u = "" ∨ lookupLocation locs u = none) → resolveJob locs j = j)
    ∧ (∀ (j : Job) (u : String) (location : Location), j.location_uuid = some u → u ≠ "" →
        lookupLocation locs u = some location →
        (resolveJob locs j).payload = j.payload
        ∧ (resolveJob locs j).location_uuid = j.location_uuid
        ∧ (resolveJob locs j).location_address = some (formatLocationAddress location)
        ∧ (resolveJob locs j).location_name = location.name
        ∧ (resolveJob locs j).location_city = location.city
        ∧ (resolveJob locs j).location_state = location.state
        ∧ (resolveJob locs j).location_postcode = location.post_code
        ∧ (resolveJob locs j).location_country = location.country
        ∧ (resolveJob locs j).geo_street = location.line1
        ∧ (resolveJob locs j).geo_city = location.city
        ∧ (resolveJob locs j).geo_state = location.state
        ∧ (resolveJob locs j).geo_postcode = location.post_code
        ∧ (resolveJob locs j).geo_country = location.country
        ∧ (∀ a, j.job_address = some a → a ≠ "" →
            (resolveJob locs j).job_address = some a)
        ∧ ((j.job_address = none ∨ j.job_address = some "") →
            (resolveJob locs j).job_address = some (formatLocationAddress location))) := by
  refine ⟨fun j => rfl, fun js => rfl, fun js => ?_, ?_, ?_, ?_⟩
  · simp
  · intro j hj
    simp [resolveJob, hj]
  · intro j u hj hu
    rcases hu with hu | hu
    · simp [resolveJob, hj, hu]
    · by_cases he : u = ""
      · simp [resolveJob, hj, he]
      · simp [resolveJob, hj, he, hu]
  · intro j u location hj hu hl
    have heq : resolveJob locs j =
        { j with
          location_address := some (formatLocationAddress location)
          location_name := location.name
          location_city := location.city
          location_state := location.state
          location_postcode := location.post_code
          location_country := location.country
          geo_street := location.line1
          geo_city := location.city
          geo_state := location.state
          geo_postcode := location.post_code
          geo_country := location.country
          job_address :=
            match j.job_address with
            | none => some (formatLocationAddress location)
            | some a =>
              if a = "" then some (formatLocationAddress location) else some a } := by
      simp [resolveJob, hj, hu, hl]
    rw [heq]
    refine ⟨rfl, rfl, rfl, rfl, rfl, rfl, rfl, rfl, rfl, rfl, rfl, rfl, rfl, ?_, ?_⟩
    · intro a ha hne
      simp [ha, hne]
    · intro ha
      rcases ha with ha | ha <;> simp [ha]

/-- Instance of claim C10: the sample job matching the sample location is
enriched in place, keeping its payload and uuid and filling the address
fields from the location. -/
theorem resolveJobLocationData_spec_witness :
    (resolveJob [exLocation] exJob).payload = exJob.payload
    ∧ (resolveJob [exLocation] exJob).location_uuid = exJob.location_uuid
    ∧ (resolveJob [exLocation] exJob).job_address =
        some (formatLocationAddress exLocation)
    ∧ resolveJobLocationData [exLocation] (.single exJob) =
        .single (resolveJob [exLocation] exJob) := by
  have hspec := resolveJobLocationData_spec [exLocation]
  have hmatch := hspec.2.2.2.2.2 exJob "loc1" exLocation rfl (by decide) (by decide)
  exact ⟨hmatch.1, hmatch.2.1, hmatch.2.2.2.2.2.2.2.2.2.2.2.2.2.2 (Or.inl rfl),
    hspec.1 exJob⟩

end JobPortal
